import Mathlib

/-!
Verification of the YAX.Math library (2D/3D/4D vectors, 4x4 row-major
matrix, quaternion) against its natural-language specification.

Embedding conventions:
* C++ `float` arithmetic is modelled as exact arithmetic in a linear
  ordered field (instantiated at `ℚ` for the purely rational operations,
  at `ℝ` where the source calls `sqrt` / trigonometric / `exp` / `log`
  functions).  Division by zero is the field's total division (`x / 0 = 0`).
* Mutating C++ member operators (`operator-=`, ...) become functions from
  the old value of `*this` (and the argument) to the new value.
* The global mutable tolerance `MathHelper::Epsilon` becomes an explicit
  parameter `eps`.
* Thrown `std::out_of_range` exceptions become `Except String` results.
* The float literals `M_PI` (as rounded to `float`) and `0.999f` are
  written as the exact rational values of the corresponding constants.
-/

namespace YAX

section ScalarHelpers

variable {α : Type} [LinearOrderedField α]

namespace MathHelper

/-- MathHelper::Max: (val1 > val2 ? val1 : val2). -/
def Max (val1 val2 : α) : α := if val1 > val2 then val1 else val2

/-- MathHelper::Min: (val1 < val2 ? val1 : val2). -/
def Min (val1 val2 : α) : α := if val1 < val2 then val1 else val2

/-- MathHelper::Clamp: Max(min, Min(max, val)). -/
def Clamp (val min max : α) : α := Max min (Min max val)

/-- MathHelper::Lerp: val1 + (val2 - val1) * t. -/
def Lerp (val1 val2 t : α) : α := val1 + (val2 - val1) * t

/-- MathHelper::Pi, the value of M_PI rounded to the nearest float:
13176795 * 2^-22. -/
def Pi : α := 13176795 / 4194304

/-- MathHelper::TwoPi = 2 * Pi (exact in float as well). -/
def TwoPi : α := 2 * Pi

/-- Truncation toward zero, as C's fmodf quotient uses. -/
def truncTowardZero (q : ℚ) : ℤ := if 0 ≤ q then ⌊q⌋ else ⌈q⌉

/-- C std::fmodf: x - trunc(x / y) * y (result has the sign of x). -/
def fmod (x y : ℚ) : ℚ := x - ((truncTowardZero (x / y) : ℤ) : ℚ) * y

/-- MathHelper::WrapAngle: val = fmodf(val, TwoPi);
return (val > Pi ? -(TwoPi - val) : val). -/
def WrapAngle (val : ℚ) : ℚ :=
  let v := fmod val TwoPi
  if v > Pi then -(TwoPi - v) else v

/-- Modelled from the spec: the implementation of
MathHelper::EqualWithinEpsilon is not among the repository's source files
(only its header declaration and its caller are).  Spec section 4.1 and the
header doc both state it returns |val1 - val2| < Epsilon, with the global
Epsilon made an explicit parameter here. -/
def EqualWithinEpsilon (eps val1 val2 : α) : Bool := decide (|val1 - val2| < eps)

end MathHelper

end ScalarHelpers

/-- struct Vector2, fields X Y. -/
structure Vector2 (α : Type) : Type where
  X : α
  Y : α
  deriving DecidableEq

/-- struct Vector3, fields X Y Z. -/
structure Vector3 (α : Type) : Type where
  X : α
  Y : α
  Z : α
  deriving DecidableEq

/-- struct Vector4, fields X Y Z W. -/
structure Vector4 (α : Type) : Type where
  X : α
  Y : α
  Z : α
  W : α
  deriving DecidableEq

/-- struct Quaternion, fields X Y Z W. -/
structure Quaternion (α : Type) : Type where
  X : α
  Y : α
  Z : α
  W : α
  deriving DecidableEq

/-- struct Matrix, sixteen floats M11..M44, row-major. -/
structure Matrix (α : Type) : Type where
  M11 : α
  M12 : α
  M13 : α
  M14 : α
  M21 : α
  M22 : α
  M23 : α
  M24 : α
  M31 : α
  M32 : α
  M33 : α
  M34 : α
  M41 : α
  M42 : α
  M43 : α
  M44 : α
  deriving DecidableEq

section VectorOps

variable {α : Type} [LinearOrderedField α]

namespace Vector2

/-- Binary operator-(Vector2, Vector2): componentwise (defined directly in
Vector2.cpp, not via operator-=). -/
def sub (lhs rhs : Vector2 α) : Vector2 α := ⟨lhs.X - rhs.X, lhs.Y - rhs.Y⟩

/-- Vector2::operator-= as written in the source: the second statement is
this->X -= rhs.Y (not this->Y -= rhs.Y), so X is decremented by both
components and Y is left unchanged. -/
def subAssign (self rhs : Vector2 α) : Vector2 α :=
  ⟨self.X - rhs.X - rhs.Y, self.Y⟩

/-- Binary operator+(Vector2, Vector2): componentwise. -/
def add (lhs rhs : Vector2 α) : Vector2 α := ⟨lhs.X + rhs.X, lhs.Y + rhs.Y⟩

/-- operator*(Vector2, float): broadcast scalar multiply. -/
def mulF (lhs : Vector2 α) (rhs : α) : Vector2 α := ⟨lhs.X * rhs, lhs.Y * rhs⟩

/-- Vector2::Lerp: v1 + (v2 - v1) * t using the binary vector operators. -/
def Lerp (v1 v2 : Vector2 α) (t : α) : Vector2 α := add v1 (mulF (sub v2 v1) t)

/-- operator==(Vector2, Vector2): exact componentwise comparison. -/
def eqOp (lhs rhs : Vector2 α) : Bool :=
  decide (lhs.X = rhs.X) && decide (lhs.Y = rhs.Y)

end Vector2

namespace Vector3

/-- Unary operator-(Vector3): componentwise negation. -/
def neg (rhs : Vector3 α) : Vector3 α := ⟨-rhs.X, -rhs.Y, -rhs.Z⟩

/-- Binary operator+(Vector3, Vector3): componentwise. -/
def add (lhs rhs : Vector3 α) : Vector3 α :=
  ⟨lhs.X + rhs.X, lhs.Y + rhs.Y, lhs.Z + rhs.Z⟩

/-- Binary operator-(Vector3, Vector3): lhs + (-rhs) in the source. -/
def sub (lhs rhs : Vector3 α) : Vector3 α := add lhs (neg rhs)

/-- Vector3::operator-=: componentwise subtraction (correct in the source). -/
def subAssign (self v : Vector3 α) : Vector3 α :=
  ⟨self.X - v.X, self.Y - v.Y, self.Z - v.Z⟩

/-- operator*(Vector3, float): broadcast scalar multiply. -/
def mulF (lhs : Vector3 α) (rhs : α) : Vector3 α :=
  ⟨lhs.X * rhs, lhs.Y * rhs, lhs.Z * rhs⟩

/-- operator/(Vector3, float): broadcast scalar divide. -/
def divF (lhs : Vector3 α) (rhs : α) : Vector3 α :=
  ⟨lhs.X / rhs, lhs.Y / rhs, lhs.Z / rhs⟩

/-- Vector3::LengthSquared: X*X + Y*Y + Z*Z. -/
def LengthSquared (v : Vector3 α) : α := v.X * v.X + v.Y * v.Y + v.Z * v.Z

/-- Vector3::Transform(vec, mat) as written in the source: the Z component
adds mat.M41 where the X/Y components add M41/M42 in order (the translation
term of the Z line repeats M41 instead of using M43). -/
def Transform (vec : Vector3 α) (mat : Matrix α) : Vector3 α :=
  ⟨vec.X * mat.M11 + vec.Y * mat.M21 + vec.Z * mat.M31 + mat.M41,
   vec.X * mat.M12 + vec.Y * mat.M22 + vec.Z * mat.M32 + mat.M42,
   vec.X * mat.M13 + vec.Y * mat.M23 + vec.Z * mat.M33 + mat.M41⟩

/-- operator==(Vector3, Vector3): exact componentwise comparison. -/
def eqOp (lhs rhs : Vector3 α) : Bool :=
  decide (lhs.X = rhs.X) && decide (lhs.Y = rhs.Y) && decide (lhs.Z = rhs.Z)

end Vector3

namespace Vector4

/-- Binary operator+(Vector4, Vector4), via operator+= (componentwise). -/
def add (lhs rhs : Vector4 α) : Vector4 α :=
  ⟨lhs.X + rhs.X, lhs.Y + rhs.Y, lhs.Z + rhs.Z, lhs.W + rhs.W⟩

/-- Vector4::operator-= as written in the source: every statement divides
(X /= v.X and so on) instead of subtracting. -/
def subAssign (self v : Vector4 α) : Vector4 α :=
  ⟨self.X / v.X, self.Y / v.Y, self.Z / v.Z, self.W / v.W⟩

/-- Binary operator-(Vector4, Vector4): lhs -= rhs in the source, so it
inherits the division body of operator-=. -/
def sub (lhs rhs : Vector4 α) : Vector4 α := subAssign lhs rhs

/-- operator*(float, Vector4): broadcast scalar multiply. -/
def mulF (lhs : Vector4 α) (rhs : α) : Vector4 α :=
  ⟨lhs.X * rhs, lhs.Y * rhs, lhs.Z * rhs, lhs.W * rhs⟩

/-- Vector4::Clamp as written in the source: all four components are
MathHelper::Clamp(val.X, min.X, max.X); the Y/Z/W lines repeat the X line. -/
def Clamp (val min max : Vector4 α) : Vector4 α :=
  ⟨MathHelper.Clamp val.X min.X max.X,
   MathHelper.Clamp val.X min.X max.X,
   MathHelper.Clamp val.X min.X max.X,
   MathHelper.Clamp val.X min.X max.X⟩

/-- Vector4::Lerp: MathHelper::Lerp applied per component. -/
def Lerp (f tq : Vector4 α) (t : α) : Vector4 α :=
  ⟨MathHelper.Lerp f.X tq.X t,
   MathHelper.Lerp f.Y tq.Y t,
   MathHelper.Lerp f.Z tq.Z t,
   MathHelper.Lerp f.W tq.W t⟩

/-- operator==(Vector4, Vector4): exact componentwise comparison. -/
def eqOp (lhs rhs : Vector4 α) : Bool :=
  decide (lhs.X = rhs.X) && decide (lhs.Y = rhs.Y)
    && decide (lhs.Z = rhs.Z) && decide (lhs.W = rhs.W)

end Vector4

namespace Quaternion

/-- Quaternion::Identity = (0, 0, 0, 1). -/
def Identity : Quaternion α := ⟨0, 0, 0, 1⟩

/-- Quaternion::Conjugate: negates the vector part. -/
def Conjugate (q : Quaternion α) : Quaternion α := ⟨-q.X, -q.Y, -q.Z, q.W⟩

/-- Quaternion::LengthSquared: X*X + Y*Y + Z*Z + W*W. -/
def LengthSquared (q : Quaternion α) : α :=
  q.X * q.X + q.Y * q.Y + q.Z * q.Z + q.W * q.W

/-- Quaternion::Dot (static overload). -/
def Dot (q1 q2 : Quaternion α) : α :=
  q1.X * q2.X + q1.Y * q2.Y + q1.Z * q2.Z + q1.W * q2.W

/-- operator*(Quaternion, Quaternion), the Hamilton product per the
operator*= body. -/
def mul (lhs q : Quaternion α) : Quaternion α :=
  ⟨lhs.W * q.X + lhs.X * q.W + lhs.Y * q.Z - lhs.Z * q.Y,
   lhs.W * q.Y - lhs.X * q.Z + lhs.Y * q.W + lhs.Z * q.X,
   lhs.W * q.Z + lhs.X * q.Y - lhs.Y * q.X + lhs.Z * q.W,
   lhs.W * q.W - lhs.X * q.X - lhs.Y * q.Y - lhs.Z * q.Z⟩

/-- operator*(Quaternion, float): broadcast scalar multiply. -/
def mulF (lhs : Quaternion α) (f : α) : Quaternion α :=
  ⟨lhs.X * f, lhs.Y * f, lhs.Z * f, lhs.W * f⟩

/-- operator/(Quaternion, float): broadcast scalar divide. -/
def divF (lhs : Quaternion α) (f : α) : Quaternion α :=
  ⟨lhs.X / f, lhs.Y / f, lhs.Z / f, lhs.W / f⟩

/-- Quaternion::Inverse: q.Conjugate(); q /= q.LengthSquared(). -/
def Inverse (q : Quaternion α) : Quaternion α :=
  divF (Conjugate q) (LengthSquared (Conjugate q))

/-- Quaternion::Lerp: MathHelper::Lerp applied per component. -/
def Lerp (f tq : Quaternion α) (t : α) : Quaternion α :=
  ⟨MathHelper.Lerp f.X tq.X t,
   MathHelper.Lerp f.Y tq.Y t,
   MathHelper.Lerp f.Z tq.Z t,
   MathHelper.Lerp f.W tq.W t⟩

/-- The Quaternion(Vector3 xyz, float w) constructor. -/
def ofVector3 (xyz : Vector3 α) (w : α) : Quaternion α :=
  ⟨xyz.X, xyz.Y, xyz.Z, w⟩

/-- operator==(Quaternion, Quaternion): componentwise
MathHelper::EqualWithinEpsilon, with the global Epsilon explicit. -/
def eqOp (eps : α) (lhs rhs : Quaternion α) : Bool :=
  MathHelper.EqualWithinEpsilon eps lhs.X rhs.X
    && MathHelper.EqualWithinEpsilon eps lhs.Y rhs.Y
    && MathHelper.EqualWithinEpsilon eps lhs.Z rhs.Z
    && MathHelper.EqualWithinEpsilon eps lhs.W rhs.W

end Quaternion

namespace Matrix

/-- Matrix::Identity. -/
def Identity : Matrix α :=
  ⟨1, 0, 0, 0,
   0, 1, 0, 0,
   0, 0, 1, 0,
   0, 0, 0, 1⟩

/-- Matrix::CreateTranslation(xT, yT, zT). -/
def CreateTranslation (xT yT zT : α) : Matrix α :=
  ⟨1, 0, 0, 0,
   0, 1, 0, 0,
   0, 0, 1, 0,
   xT, yT, zT, 1⟩

/-- operator*(Matrix, Matrix), the row-major product per the operator*=
body. -/
def mul (l m : Matrix α) : Matrix α :=
  ⟨l.M11 * m.M11 + l.M12 * m.M21 + l.M13 * m.M31 + l.M14 * m.M41,
   l.M11 * m.M12 + l.M12 * m.M22 + l.M13 * m.M32 + l.M14 * m.M42,
   l.M11 * m.M13 + l.M12 * m.M23 + l.M13 * m.M33 + l.M14 * m.M43,
   l.M11 * m.M14 + l.M12 * m.M24 + l.M13 * m.M34 + l.M14 * m.M44,
   l.M21 * m.M11 + l.M22 * m.M21 + l.M23 * m.M31 + l.M24 * m.M41,
   l.M21 * m.M12 + l.M22 * m.M22 + l.M23 * m.M32 + l.M24 * m.M42,
   l.M21 * m.M13 + l.M22 * m.M23 + l.M23 * m.M33 + l.M24 * m.M43,
   l.M21 * m.M14 + l.M22 * m.M24 + l.M23 * m.M34 + l.M24 * m.M44,
   l.M31 * m.M11 + l.M32 * m.M21 + l.M33 * m.M31 + l.M34 * m.M41,
   l.M31 * m.M12 + l.M32 * m.M22 + l.M33 * m.M32 + l.M34 * m.M42,
   l.M31 * m.M13 + l.M32 * m.M23 + l.M33 * m.M33 + l.M34 * m.M43,
   l.M31 * m.M14 + l.M32 * m.M24 + l.M33 * m.M34 + l.M34 * m.M44,
   l.M41 * m.M11 + l.M42 * m.M21 + l.M43 * m.M31 + l.M44 * m.M41,
   l.M41 * m.M12 + l.M42 * m.M22 + l.M43 * m.M32 + l.M44 * m.M42,
   l.M41 * m.M13 + l.M42 * m.M23 + l.M43 * m.M33 + l.M44 * m.M43,
   l.M41 * m.M14 + l.M42 * m.M24 + l.M43 * m.M34 + l.M44 * m.M44⟩

/-- operator*(float, Matrix): broadcast scalar multiply (via operator*=). -/
def mulF (m : Matrix α) (f : α) : Matrix α :=
  ⟨m.M11 * f, m.M12 * f, m.M13 * f, m.M14 * f,
   m.M21 * f, m.M22 * f, m.M23 * f, m.M24 * f,
   m.M31 * f, m.M32 * f, m.M33 * f, m.M34 * f,
   m.M41 * f, m.M42 * f, m.M43 * f, m.M44 * f⟩

/-- Matrix::Determinant: cofactor expansion via the six 2x2 top-block
sub-determinants s0..s5 and bottom-block c0..c5. -/
def Determinant (m : Matrix α) : α :=
  let s0 := m.M11 * m.M22 - m.M12 * m.M21
  let s1 := m.M11 * m.M23 - m.M13 * m.M21
  let s2 := m.M11 * m.M24 - m.M14 * m.M21
  let s3 := m.M12 * m.M23 - m.M13 * m.M22
  let s4 := m.M12 * m.M24 - m.M14 * m.M22
  let s5 := m.M13 * m.M24 - m.M14 * m.M23
  let c0 := m.M31 * m.M42 - m.M32 * m.M41
  let c1 := m.M31 * m.M43 - m.M33 * m.M41
  let c2 := m.M31 * m.M44 - m.M34 * m.M41
  let c3 := m.M32 * m.M43 - m.M33 * m.M42
  let c4 := m.M32 * m.M44 - m.M34 * m.M42
  let c5 := m.M33 * m.M44 - m.M34 * m.M43
  s0 * c5 - s1 * c4 + s2 * c3 + s3 * c2 - s4 * c1 + s5 * c0

/-- Matrix::Invert: the classical adjugate combined from the same twelve
2x2 sub-determinants, scaled by 1/det (no zero-determinant guard). -/
def Invert (m : Matrix α) : Matrix α :=
  let s0 := m.M11 * m.M22 - m.M12 * m.M21
  let s1 := m.M11 * m.M23 - m.M13 * m.M21
  let s2 := m.M11 * m.M24 - m.M14 * m.M21
  let s3 := m.M12 * m.M23 - m.M13 * m.M22
  let s4 := m.M12 * m.M24 - m.M14 * m.M22
  let s5 := m.M13 * m.M24 - m.M14 * m.M23
  let c0 := m.M31 * m.M42 - m.M32 * m.M41
  let c1 := m.M31 * m.M43 - m.M33 * m.M41
  let c2 := m.M31 * m.M44 - m.M34 * m.M41
  let c3 := m.M32 * m.M43 - m.M33 * m.M42
  let c4 := m.M32 * m.M44 - m.M34 * m.M42
  let c5 := m.M33 * m.M44 - m.M34 * m.M43
  let det := s0 * c5 - s1 * c4 + s2 * c3 + s3 * c2 - s4 * c1 + s5 * c0
  let adj : Matrix α :=
    ⟨m.M22 * c5 - m.M23 * c4 + m.M24 * c3,
     -m.M12 * c5 + m.M13 * c4 - m.M14 * c3,
     m.M42 * s5 - m.M43 * s4 + m.M44 * s3,
     -m.M32 * s5 + m.M33 * s4 - m.M34 * s3,
     -m.M21 * c5 + m.M23 * c2 - m.M24 * c1,
     m.M11 * c5 - m.M13 * c2 + m.M14 * c1,
     -m.M41 * s5 + m.M43 * s2 - m.M44 * s1,
     m.M31 * s5 - m.M33 * s2 + m.M34 * s1,
     m.M21 * c4 - m.M22 * c2 + m.M24 * c0,
     -m.M11 * c4 + m.M12 * c2 - m.M14 * c0,
     m.M41 * s4 - m.M42 * s2 + m.M44 * s0,
     -m.M31 * s4 + m.M32 * s2 - m.M34 * s0,
     -m.M21 * c3 + m.M22 * c1 - m.M23 * c0,
     m.M11 * c3 - m.M12 * c1 + m.M13 * c0,
     -m.M41 * s3 + m.M42 * s1 - m.M43 * s0,
     m.M31 * s3 - m.M32 * s1 + m.M33 * s0⟩
  mulF adj (1 / det)

/-- Matrix::Lerp: MathHelper::Lerp applied to each of the sixteen
entries. -/
def Lerp (f tq : Matrix α) (t : α) : Matrix α :=
  ⟨MathHelper.Lerp f.M11 tq.M11 t, MathHelper.Lerp f.M12 tq.M12 t,
   MathHelper.Lerp f.M13 tq.M13 t, MathHelper.Lerp f.M14 tq.M14 t,
   MathHelper.Lerp f.M21 tq.M21 t, MathHelper.Lerp f.M22 tq.M22 t,
   MathHelper.Lerp f.M23 tq.M23 t, MathHelper.Lerp f.M24 tq.M24 t,
   MathHelper.Lerp f.M31 tq.M31 t, MathHelper.Lerp f.M32 tq.M32 t,
   MathHelper.Lerp f.M33 tq.M33 t, MathHelper.Lerp f.M34 tq.M34 t,
   MathHelper.Lerp f.M41 tq.M41 t, MathHelper.Lerp f.M42 tq.M42 t,
   MathHelper.Lerp f.M43 tq.M43 t, MathHelper.Lerp f.M44 tq.M44 t⟩

/-- operator==(Matrix, Matrix): exact componentwise comparison of all
sixteen entries. -/
def eqOp (lhs rhs : Matrix α) : Bool :=
  decide (lhs.M11 = rhs.M11) && decide (lhs.M12 = rhs.M12)
    && decide (lhs.M13 = rhs.M13) && decide (lhs.M14 = rhs.M14)
    && decide (lhs.M21 = rhs.M21) && decide (lhs.M22 = rhs.M22)
    && decide (lhs.M23 = rhs.M23) && decide (lhs.M24 = rhs.M24)
    && decide (lhs.M31 = rhs.M31) && decide (lhs.M32 = rhs.M32)
    && decide (lhs.M33 = rhs.M33) && decide (lhs.M34 = rhs.M34)
    && decide (lhs.M41 = rhs.M41) && decide (lhs.M42 = rhs.M42)
    && decide (lhs.M43 = rhs.M43) && decide (lhs.M44 = rhs.M44)

/-- Entrywise approximate matrix equality: every entry within eps, the
comparison the spec means by "approximately the Identity matrix". -/
def ApproxEqual (eps : α) (lhs rhs : Matrix α) : Bool :=
  MathHelper.EqualWithinEpsilon eps lhs.M11 rhs.M11
    && MathHelper.EqualWithinEpsilon eps lhs.M12 rhs.M12
    && MathHelper.EqualWithinEpsilon eps lhs.M13 rhs.M13
    && MathHelper.EqualWithinEpsilon eps lhs.M14 rhs.M14
    && MathHelper.EqualWithinEpsilon eps lhs.M21 rhs.M21
    && MathHelper.EqualWithinEpsilon eps lhs.M22 rhs.M22
    && MathHelper.EqualWithinEpsilon eps lhs.M23 rhs.M23
    && MathHelper.EqualWithinEpsilon eps lhs.M24 rhs.M24
    && MathHelper.EqualWithinEpsilon eps lhs.M31 rhs.M31
    && MathHelper.EqualWithinEpsilon eps lhs.M32 rhs.M32
    && MathHelper.EqualWithinEpsilon eps lhs.M33 rhs.M33
    && MathHelper.EqualWithinEpsilon eps lhs.M34 rhs.M34
    && MathHelper.EqualWithinEpsilon eps lhs.M41 rhs.M41
    && MathHelper.EqualWithinEpsilon eps lhs.M42 rhs.M42
    && MathHelper.EqualWithinEpsilon eps lhs.M43 rhs.M43
    && MathHelper.EqualWithinEpsilon eps lhs.M44 rhs.M44

end Matrix

end VectorOps

section RealOps

/-- Vector3::Length: sqrt(LengthSquared()). -/
noncomputable def Vector3.Length (v : Vector3 ℝ) : ℝ :=
  Real.sqrt (Vector3.LengthSquared v)

/-- Quaternion::Length: sqrt(LengthSquared()). -/
noncomputable def Quaternion.Length (q : Quaternion ℝ) : ℝ :=
  Real.sqrt (Quaternion.LengthSquared q)

/-- QLn from the SLERP helpers of Quaternion.cpp: len = q.Length();
theta = q.W / len; v = (q.X, q.Y, q.Z);
return Quaternion(v * acos(theta), log(len)). -/
noncomputable def QLn (q : Quaternion ℝ) : Quaternion ℝ :=
  let len := Quaternion.Length q
  let theta := q.W / len
  let v : Vector3 ℝ := ⟨q.X, q.Y, q.Z⟩
  Quaternion.ofVector3 (Vector3.mulF v (Real.arccos theta)) (Real.log len)

/-- QExp from the SLERP helpers: v = (q.X, q.Y, q.Z); len = v.Length();
return Quaternion(v / len * sin(len), cos(len)) * exp(q.W). -/
noncomputable def QExp (q : Quaternion ℝ) : Quaternion ℝ :=
  let v : Vector3 ℝ := ⟨q.X, q.Y, q.Z⟩
  let len := Vector3.Length v
  Quaternion.mulF
    (Quaternion.ofVector3 (Vector3.mulF (Vector3.divF v len) (Real.sin len))
      (Real.cos len))
    (Real.exp q.W)

/-- QPow: QExp(QLn(q) * p). -/
noncomputable def QPow (q : Quaternion ℝ) (p : ℝ) : Quaternion ℝ :=
  QExp (Quaternion.mulF (QLn q) p)

/-- The non-Lerp branch of Quaternion::Slerp:
QPow(to * Inverse(from), t) * from, the logarithm/exponential form. -/
noncomputable def slerpLogExp (a b : Quaternion ℝ) (t : ℝ) : Quaternion ℝ :=
  Quaternion.mul (QPow (Quaternion.mul b (Quaternion.Inverse a)) t) a

/-- Quaternion::Slerp (a = from, b = to): d = Dot(from, to);
if (d < 0.999f) return Lerp(from, to, t);
return QPow(to * Inverse(from), t) * from.
Note the branch sense in the source: the Lerp branch is taken when
d < 0.999, the logarithm/exponential branch when d is at least 0.999. -/
noncomputable def Quaternion.Slerp (a b : Quaternion ℝ) (t : ℝ) : Quaternion ℝ :=
  let d := Quaternion.Dot a b
  if d < 999 / 1000 then Quaternion.Lerp a b t
  else slerpLogExp a b t

/-- Quaternion::CreateFromRotationMatrix: w = 0.5*sqrt(1 + M11 - M22 - M33);
inv = 1/(4*w); components inv*(M23-M32), inv*(M31-M13), inv*(M12-M21), w. -/
noncomputable def Quaternion.CreateFromRotationMatrix (m : Matrix ℝ) :
    Quaternion ℝ :=
  let w := 1 / 2 * Real.sqrt (1 + m.M11 - m.M22 - m.M33)
  let inv := 1 / (4 * w)
  ⟨inv * (m.M23 - m.M32), inv * (m.M31 - m.M13), inv * (m.M12 - m.M21), w⟩

/-- Matrix::Decompose: the three in-out parameters (scale s, rotation r,
translation t) enter as their prior values and the result is the returned
flag together with their values after the call. -/
noncomputable def Matrix.Decompose (m : Matrix ℝ) (s : Vector3 ℝ)
    (r : Quaternion ℝ) (t : Vector3 ℝ) :
    Bool × Vector3 ℝ × Quaternion ℝ × Vector3 ℝ :=
  let scaleX := Real.sqrt (m.M11 * m.M11 + m.M12 * m.M12 + m.M13 * m.M13)
  let scaleY := Real.sqrt (m.M21 * m.M21 + m.M22 * m.M22 + m.M23 * m.M23)
  let scaleZ := Real.sqrt (m.M31 * m.M31 + m.M32 * m.M32 + m.M33 * m.M33)
  if scaleX = 0 ∨ scaleY = 0 ∨ scaleZ = 0 then
    (false, s, Quaternion.Identity, t)
  else
    (true,
      ⟨scaleX, scaleY, scaleZ⟩,
      Quaternion.CreateFromRotationMatrix
        ⟨m.M11 / scaleX, m.M12 / scaleX, m.M13 / scaleX, 0,
         m.M21 / scaleY, m.M22 / scaleY, m.M23 / scaleY, 0,
         m.M31 / scaleZ, m.M32 / scaleZ, m.M33 / scaleZ, 0,
         0, 0, 0, 1⟩,
      ⟨m.M41, m.M42, m.M43⟩)

/-- Matrix::CreatePerspectiveFieldOfView with its out_of_range throws made
an Except result, guards in source order:
if (!(fov >= 0 && fov <= MathHelper::Pi)) throw; if (zN > zF) throw;
if (zN < 0 || zF < 0) throw; then the projection matrix from
yScale = cos(fov/2)/sin(fov/2) and xScale = yScale/aR. -/
noncomputable def Matrix.CreatePerspectiveFieldOfView (fov aR zN zF : ℝ) :
    Except String (Matrix ℝ) :=
  if ¬(fov ≥ 0 ∧ fov ≤ MathHelper.Pi) then
    Except.error "fieldOfView must be between 0 and Pi radians (0 and 180 degrees)"
  else if zN > zF then
    Except.error "zNear must be less than or equal to zFar"
  else if zN < 0 ∨ zF < 0 then
    Except.error "zNear and zFar must be greater than 0"
  else
    let yScale := Real.cos (fov / 2) / Real.sin (fov / 2)
    let xScale := yScale / aR
    Except.ok
      ⟨xScale, 0, 0, 0,
       0, yScale, 0, 0,
       0, 0, zF / (zN - zF), -1,
       0, 0, zN * zF / (zN - zF), 0⟩

/-- Whether a CreatePerspectiveFieldOfView call raised the out-of-range
error. -/
def raisesError (res : Except String (Matrix ℝ)) : Bool :=
  match res with
  | Except.error _ => true
  | Except.ok _ => false

end RealOps

/-- C4: the claim states that for Vector2, Vector3 and Vector4 both the
binary operator- and the compound operator-= compute the componentwise
difference.  Evaluating the source at concrete inputs: Vector3 (and the
binary Vector2 operator-) behave as claimed, but Vector2::operator-=
subtracts both rhs components from X and leaves Y unchanged
((1,2) -= (3,4) gives (-6,2), not (-2,-2)), and Vector4::operator-= and
the binary operator- built on it divide componentwise
((8,9,10,12) - (2,3,5,6) gives (4,3,2,2), not (6,6,5,6)). -/
theorem vector_sub_operators_at_concrete_inputs :
    Vector2.sub (⟨1, 2⟩ : Vector2 ℚ) ⟨3, 4⟩ = ⟨-2, -2⟩
    ∧ Vector2.subAssign (⟨1, 2⟩ : Vector2 ℚ) ⟨3, 4⟩ = ⟨-6, 2⟩
    ∧ Vector2.subAssign (⟨1, 2⟩ : Vector2 ℚ) ⟨3, 4⟩ ≠ ⟨-2, -2⟩
    ∧ Vector3.sub (⟨1, 2, 3⟩ : Vector3 ℚ) ⟨4, 5, 6⟩ = ⟨-3, -3, -3⟩
    ∧ Vector3.subAssign (⟨1, 2, 3⟩ : Vector3 ℚ) ⟨4, 5, 6⟩ = ⟨-3, -3, -3⟩
    ∧ Vector4.subAssign (⟨8, 9, 10, 12⟩ : Vector4 ℚ) ⟨2, 3, 5, 6⟩ = ⟨4, 3, 2, 2⟩
    ∧ Vector4.sub (⟨8, 9, 10, 12⟩ : Vector4 ℚ) ⟨2, 3, 5, 6⟩ = ⟨4, 3, 2, 2⟩
    ∧ Vector4.sub (⟨8, 9, 10, 12⟩ : Vector4 ℚ) ⟨2, 3, 5, 6⟩ ≠ ⟨6, 6, 5, 6⟩ := by
  norm_num [Vector2.sub, Vector2.subAssign, Vector3.sub, Vector3.add,
    Vector3.neg, Vector3.subAssign, Vector4.sub, Vector4.subAssign,
    Vector2.mk.injEq, Vector3.mk.injEq, Vector4.mk.injEq]

/-- C5: the claim states Vector4::Clamp applies the scalar Clamp
independently per component.  Evaluating the source at val = (1,5,5,5),
min = 0, max = 10: the code returns (1,1,1,1) because all four result
components repeat Clamp(val.X, min.X, max.X), while the per-component
value is (1,5,5,5). -/
theorem vector4_clamp_at_concrete_input :
    Vector4.Clamp (⟨1, 5, 5, 5⟩ : Vector4 ℚ) ⟨0, 0, 0, 0⟩ ⟨10, 10, 10, 10⟩
      = ⟨1, 1, 1, 1⟩
    ∧ (⟨MathHelper.Clamp (1 : ℚ) 0 10, MathHelper.Clamp (5 : ℚ) 0 10,
        MathHelper.Clamp (5 : ℚ) 0 10, MathHelper.Clamp (5 : ℚ) 0 10⟩
        : Vector4 ℚ) = ⟨1, 5, 5, 5⟩
    ∧ Vector4.Clamp (⟨1, 5, 5, 5⟩ : Vector4 ℚ) ⟨0, 0, 0, 0⟩ ⟨10, 10, 10, 10⟩
      ≠ ⟨1, 5, 5, 5⟩ := by
  norm_num [Vector4.Clamp, MathHelper.Clamp, MathHelper.Max, MathHelper.Min,
    Vector4.mk.injEq]

/-- C6: the claim states the result's Z component of Vector3::Transform is
v.X*M13 + v.Y*M23 + v.Z*M33 + M43, so the whole translation row applies.
Evaluating the source at v = (0,0,0) and the translation matrix for
(1,2,3): the code returns (1,2,1) because the Z line adds M41 instead of
M43; the claimed row-vector product gives (1,2,3). -/
theorem vector3_transform_at_concrete_input :
    Vector3.Transform (⟨0, 0, 0⟩ : Vector3 ℚ) (Matrix.CreateTranslation 1 2 3)
      = ⟨1, 2, 1⟩
    ∧ (Matrix.CreateTranslation (1 : ℚ) 2 3).M43 = 3
    ∧ ((0 : ℚ) * (Matrix.CreateTranslation (1 : ℚ) 2 3).M13
        + 0 * (Matrix.CreateTranslation (1 : ℚ) 2 3).M23
        + 0 * (Matrix.CreateTranslation (1 : ℚ) 2 3).M33
        + (Matrix.CreateTranslation (1 : ℚ) 2 3).M43) = 3
    ∧ (Vector3.Transform (⟨0, 0, 0⟩ : Vector3 ℚ)
        (Matrix.CreateTranslation 1 2 3)).Z ≠ 3 := by
  norm_num [Vector3.Transform, Matrix.CreateTranslation, Vector3.mk.injEq]

/-- C8: Lerp(a, b, 0) equals a and Lerp(a, b, 1) equals b exactly, for the
scalar helper and for the Vector2, Vector4, Quaternion and Matrix Lerp
operations (Vector3 has no Lerp in the source), under the exact arithmetic
of a + (b - a) * t. -/
theorem lerp_endpoints_exact :
    (∀ a b : ℚ, MathHelper.Lerp a b 0 = a ∧ MathHelper.Lerp a b 1 = b)
    ∧ (∀ u v : Vector2 ℚ, Vector2.Lerp u v 0 = u ∧ Vector2.Lerp u v 1 = v)
    ∧ (∀ u v : Vector4 ℚ, Vector4.Lerp u v 0 = u ∧ Vector4.Lerp u v 1 = v)
    ∧ (∀ p q : Quaternion ℚ,
        Quaternion.Lerp p q 0 = p ∧ Quaternion.Lerp p q 1 = q)
    ∧ (∀ m n : Matrix ℚ, Matrix.Lerp m n 0 = m ∧ Matrix.Lerp m n 1 = n) := by
  refine ⟨?_, ?_, ?_, ?_, ?_⟩
  · intro a b
    exact ⟨by simp only [MathHelper.Lerp]; ring, by simp only [MathHelper.Lerp]; ring⟩
  · rintro ⟨ux, uy⟩ ⟨vx, vy⟩
    constructor <;>
      · simp only [Vector2.Lerp, Vector2.add, Vector2.mulF, Vector2.sub,
          Vector2.mk.injEq]
        exact ⟨by ring, by ring⟩
  · rintro ⟨ux, uy, uz, uw⟩ ⟨vx, vy, vz, vw⟩
    constructor <;>
      · simp only [Vector4.Lerp, MathHelper.Lerp, Vector4.mk.injEq]
        exact ⟨by ring, by ring, by ring, by ring⟩
  · rintro ⟨px, py, pz, pw⟩ ⟨qx, qy, qz, qw⟩
    constructor <;>
      · simp only [Quaternion.Lerp, MathHelper.Lerp, Quaternion.mk.injEq]
        exact ⟨by ring, by ring, by ring, by ring⟩
  · rintro ⟨_, _, _, _, _, _, _, _, _, _, _, _, _, _, _, _⟩
      ⟨_, _, _, _, _, _, _, _, _, _, _, _, _, _, _, _⟩
    constructor <;>
      · simp only [Matrix.Lerp, MathHelper.Lerp, Matrix.mk.injEq]
        refine ⟨?_, ?_, ?_, ?_, ?_, ?_, ?_, ?_, ?_, ?_, ?_, ?_, ?_, ?_, ?_, ?_⟩
        all_goals ring

/-- C10: the Quaternion equality operator is approximate, true exactly when
every component difference is within the (explicit, formerly global)
Epsilon tolerance, while the Vector2/Vector3/Vector4 and Matrix equality
operators are exact componentwise comparison. -/
theorem equality_operator_semantics :
    (∀ (eps : ℚ) (p q : Quaternion ℚ),
      Quaternion.eqOp eps p q = true ↔
        (|p.X - q.X| < eps ∧ |p.Y - q.Y| < eps
          ∧ |p.Z - q.Z| < eps ∧ |p.W - q.W| < eps))
    ∧ (∀ u v : Vector2 ℚ, Vector2.eqOp u v = true ↔ u = v)
    ∧ (∀ u v : Vector3 ℚ, Vector3.eqOp u v = true ↔ u = v)
    ∧ (∀ u v : Vector4 ℚ, Vector4.eqOp u v = true ↔ u = v)
    ∧ (∀ m n : Matrix ℚ, Matrix.eqOp m n = true ↔ m = n) := by
  refine ⟨?_, ?_, ?_, ?_, ?_⟩
  · intro eps p q
    simp [Quaternion.eqOp, MathHelper.EqualWithinEpsilon, Bool.and_eq_true,
      decide_eq_true_eq, and_assoc]
  · rintro ⟨ux, uy⟩ ⟨vx, vy⟩
    simp [Vector2.eqOp, Vector2.mk.injEq, Bool.and_eq_true,
      decide_eq_true_eq, and_assoc]
  · rintro ⟨ux, uy, uz⟩ ⟨vx, vy, vz⟩
    simp [Vector3.eqOp, Vector3.mk.injEq, Bool.and_eq_true,
      decide_eq_true_eq, and_assoc]
  · rintro ⟨ux, uy, uz, uw⟩ ⟨vx, vy, vz, vw⟩
    simp [Vector4.eqOp, Vector4.mk.injEq, Bool.and_eq_true,
      decide_eq_true_eq, and_assoc]
  · rintro ⟨_, _, _, _, _, _, _, _, _, _, _, _, _, _, _, _⟩
      ⟨_, _, _, _, _, _, _, _, _, _, _, _, _, _, _, _⟩
    simp [Matrix.eqOp, Matrix.mk.injEq, Bool.and_eq_true,
      decide_eq_true_eq, and_assoc]

/-- C7 counterexample: the claim says WrapAngle maps every finite input
into (-Pi, Pi].  At input -Pi the code returns -Pi itself (fmod leaves it
unchanged and the single branch correction only fires for values above
+Pi), and -Pi is not strictly greater than -Pi, so the result lies outside
the claimed half-open interval (whose representative of that class is
+Pi). -/
theorem wrapangle_at_neg_pi_outside_interval :
    MathHelper.WrapAngle (-MathHelper.Pi) = -MathHelper.Pi
    ∧ ¬ (-MathHelper.Pi < MathHelper.WrapAngle (-MathHelper.Pi)) := by
  have hdiv : (-MathHelper.Pi) / MathHelper.TwoPi = -(1 / 2 : ℚ) := by
    norm_num [MathHelper.Pi, MathHelper.TwoPi]
  have htr : MathHelper.truncTowardZero ((-MathHelper.Pi) / MathHelper.TwoPi)
      = 0 := by
    rw [MathHelper.truncTowardZero, hdiv, if_neg (by norm_num)]
    norm_num
  have hfmod : MathHelper.fmod (-MathHelper.Pi) MathHelper.TwoPi
      = -MathHelper.Pi := by
    rw [MathHelper.fmod, htr]
    norm_num
  have h : MathHelper.WrapAngle (-MathHelper.Pi) = -MathHelper.Pi := by
    rw [MathHelper.WrapAngle]
    simp only [hfmod]
    rw [if_neg (by norm_num [MathHelper.Pi])]
  exact ⟨h, by rw [h]; exact lt_irrefl _⟩

/-- C7 (amended): for every finite NON-NEGATIVE radian input, WrapAngle
returns a value in the half-open interval (-Pi, Pi] that differs from the
input by an integer multiple of TwoPi; for negative inputs the missing
lower branch correction can leave the result outside that interval (see
the counterexample at -Pi). -/
theorem wrapangle_nonneg_in_interval (val : ℚ) (hval : 0 ≤ val) :
    -MathHelper.Pi < MathHelper.WrapAngle val
    ∧ MathHelper.WrapAngle val ≤ MathHelper.Pi
    ∧ ∃ k : ℤ, MathHelper.WrapAngle val = val - (k : ℚ) * MathHelper.TwoPi := by
  have hPi : (0 : ℚ) < MathHelper.Pi := by norm_num [MathHelper.Pi]
  have hTwo : (0 : ℚ) < MathHelper.TwoPi := by
    norm_num [MathHelper.TwoPi, MathHelper.Pi]
  have hTwoPi : (MathHelper.TwoPi : ℚ) = 2 * MathHelper.Pi := rfl
  have hq : 0 ≤ val / MathHelper.TwoPi := div_nonneg hval hTwo.le
  have hfloor_le : (⌊val / MathHelper.TwoPi⌋ : ℚ) * MathHelper.TwoPi ≤ val := by
    have h1 : (⌊val / MathHelper.TwoPi⌋ : ℚ) ≤ val / MathHelper.TwoPi :=
      Int.floor_le _
    calc (⌊val / MathHelper.TwoPi⌋ : ℚ) * MathHelper.TwoPi
        ≤ (val / MathHelper.TwoPi) * MathHelper.TwoPi :=
          mul_le_mul_of_nonneg_right h1 hTwo.le
      _ = val := div_mul_cancel₀ val hTwo.ne'
  have hlt : val < ((⌊val / MathHelper.TwoPi⌋ : ℚ) + 1) * MathHelper.TwoPi := by
    have h1 : val / MathHelper.TwoPi < (⌊val / MathHelper.TwoPi⌋ : ℚ) + 1 :=
      Int.lt_floor_add_one _
    calc val = (val / MathHelper.TwoPi) * MathHelper.TwoPi :=
          (div_mul_cancel₀ val hTwo.ne').symm
      _ < ((⌊val / MathHelper.TwoPi⌋ : ℚ) + 1) * MathHelper.TwoPi := by
          exact mul_lt_mul_of_pos_right h1 hTwo
  have hwrap : MathHelper.WrapAngle val =
      (if val - (⌊val / MathHelper.TwoPi⌋ : ℚ) * MathHelper.TwoPi > MathHelper.Pi
        then -(MathHelper.TwoPi
          - (val - (⌊val / MathHelper.TwoPi⌋ : ℚ) * MathHelper.TwoPi))
        else val - (⌊val / MathHelper.TwoPi⌋ : ℚ) * MathHelper.TwoPi) := by
    simp only [MathHelper.WrapAngle, MathHelper.fmod, MathHelper.truncTowardZero,
      if_pos hq]
  by_cases hc : val - (⌊val / MathHelper.TwoPi⌋ : ℚ) * MathHelper.TwoPi
      > MathHelper.Pi
  · rw [hwrap, if_pos hc]
    rw [hTwoPi] at hc hfloor_le hlt
    refine ⟨by rw [hTwoPi]; linarith, by rw [hTwoPi]; linarith, ?_⟩
    refine ⟨⌊val / MathHelper.TwoPi⌋ + 1, ?_⟩
    rw [hTwoPi]
    push_cast
    ring
  · rw [hwrap, if_neg hc]
    push_neg at hc
    have h0 : 0 ≤ val - (⌊val / MathHelper.TwoPi⌋ : ℚ) * MathHelper.TwoPi := by
      linarith
    refine ⟨by linarith, hc, ⟨⌊val / MathHelper.TwoPi⌋, by ring⟩⟩

/-- C7 amended witness at the concrete input 5. -/
theorem wrapangle_nonneg_in_interval_witness :
    0 ≤ (5 : ℚ)
    ∧ (-MathHelper.Pi < MathHelper.WrapAngle 5
      ∧ MathHelper.WrapAngle 5 ≤ MathHelper.Pi
      ∧ ∃ k : ℤ, MathHelper.WrapAngle 5 = 5 - (k : ℚ) * MathHelper.TwoPi) :=
  ⟨by norm_num, wrapangle_nonneg_in_interval 5 (by norm_num)⟩

set_option maxHeartbeats 2000000 in
/-- The product of a matrix with the source's Invert output is exactly the
identity whenever the source's Determinant is nonzero (exact arithmetic). -/
theorem mul_invert_eq_identity (m : Matrix ℚ)
    (h : Matrix.Determinant m ≠ 0) :
    Matrix.mul m (Matrix.Invert m) = Matrix.Identity := by
  obtain ⟨m11, m12, m13, m14, m21, m22, m23, m24,
    m31, m32, m33, m34, m41, m42, m43, m44⟩ := m
  simp only [Matrix.Determinant] at h
  simp only [Matrix.mul, Matrix.Invert, Matrix.mulF, Matrix.Identity,
    Matrix.mk.injEq]
  have key1 : ∀ a b c d x1 x2 x3 x4 den : ℚ, den ≠ 0 →
      a * x1 + b * x2 + c * x3 + d * x4 = den →
      a * (x1 * (1 / den)) + b * (x2 * (1 / den)) + c * (x3 * (1 / den))
        + d * (x4 * (1 / den)) = 1 := by
    intro a b c d x1 x2 x3 x4 den hden hsum
    calc a * (x1 * (1 / den)) + b * (x2 * (1 / den)) + c * (x3 * (1 / den))
          + d * (x4 * (1 / den))
        = (a * x1 + b * x2 + c * x3 + d * x4) * (1 / den) := by ring
      _ = den * (1 / den) := by rw [hsum]
      _ = 1 := mul_one_div_cancel hden
  have key0 : ∀ a b c d x1 x2 x3 x4 den : ℚ,
      a * x1 + b * x2 + c * x3 + d * x4 = 0 →
      a * (x1 * (1 / den)) + b * (x2 * (1 / den)) + c * (x3 * (1 / den))
        + d * (x4 * (1 / den)) = 0 := by
    intro a b c d x1 x2 x3 x4 den hsum
    calc a * (x1 * (1 / den)) + b * (x2 * (1 / den)) + c * (x3 * (1 / den))
          + d * (x4 * (1 / den))
        = (a * x1 + b * x2 + c * x3 + d * x4) * (1 / den) := by ring
      _ = 0 * (1 / den) := by rw [hsum]
      _ = 0 := zero_mul _
  refine ⟨key1 _ _ _ _ _ _ _ _ _ h (by ring), key0 _ _ _ _ _ _ _ _ _ (by ring),
    key0 _ _ _ _ _ _ _ _ _ (by ring), key0 _ _ _ _ _ _ _ _ _ (by ring),
    key0 _ _ _ _ _ _ _ _ _ (by ring), key1 _ _ _ _ _ _ _ _ _ h (by ring),
    key0 _ _ _ _ _ _ _ _ _ (by ring), key0 _ _ _ _ _ _ _ _ _ (by ring),
    key0 _ _ _ _ _ _ _ _ _ (by ring), key0 _ _ _ _ _ _ _ _ _ (by ring),
    key1 _ _ _ _ _ _ _ _ _ h (by ring), key0 _ _ _ _ _ _ _ _ _ (by ring),
    key0 _ _ _ _ _ _ _ _ _ (by ring), key0 _ _ _ _ _ _ _ _ _ (by ring),
    key0 _ _ _ _ _ _ _ _ _ (by ring), key1 _ _ _ _ _ _ _ _ _ h (by ring)⟩

/-- C2: for every matrix M with nonzero Determinant, M * Invert(M) is
within eps of the Identity in every one of the sixteen entries, for any
positive tolerance eps (the product is in fact exactly the Identity in the
exact-arithmetic model). -/
theorem matrix_mul_invert_approx_identity (m : Matrix ℚ) (eps : ℚ)
    (hdet : Matrix.Determinant m ≠ 0) (heps : 0 < eps) :
    Matrix.ApproxEqual eps (Matrix.mul m (Matrix.Invert m)) Matrix.Identity
      = true := by
  rw [mul_invert_eq_identity m hdet]
  simp [Matrix.ApproxEqual, MathHelper.EqualWithinEpsilon, sub_self,
    abs_zero, heps]

/-- C2 witness at the translation matrix for (5,6,7) with eps = 1. -/
theorem matrix_mul_invert_approx_identity_witness :
    Matrix.Determinant (Matrix.CreateTranslation (5 : ℚ) 6 7) ≠ 0
    ∧ (0 : ℚ) < 1
    ∧ Matrix.ApproxEqual 1
        (Matrix.mul (Matrix.CreateTranslation (5 : ℚ) 6 7)
          (Matrix.Invert (Matrix.CreateTranslation (5 : ℚ) 6 7)))
        Matrix.Identity = true := by
  have hdet : Matrix.Determinant (Matrix.CreateTranslation (5 : ℚ) 6 7) ≠ 0 := by
    norm_num [Matrix.Determinant, Matrix.CreateTranslation]
  exact ⟨hdet, by norm_num,
    matrix_mul_invert_approx_identity (Matrix.CreateTranslation 5 6 7) 1
      hdet (by norm_num)⟩

/-- C3 counterexample: the claim says CreatePerspectiveFieldOfView raises
the out-of-range error for every fieldOfView outside the OPEN interval
(0, Pi), and in particular at fieldOfView = Pi.  At fov = Pi (aspect 1,
zNear 1, zFar 2) the source does NOT raise: its guard accepts the closed
interval 0 <= fov <= Pi. -/
theorem perspective_fov_at_pi_is_accepted :
    raisesError
      (Matrix.CreatePerspectiveFieldOfView (MathHelper.Pi : ℝ) 1 1 2)
      = false := by
  have h1 : (MathHelper.Pi : ℝ) ≥ 0 ∧ (MathHelper.Pi : ℝ) ≤ MathHelper.Pi :=
    ⟨by norm_num [MathHelper.Pi], le_refl _⟩
  rw [Matrix.CreatePerspectiveFieldOfView, if_neg (not_not_intro h1),
    if_neg (by norm_num : ¬(1 : ℝ) > 2),
    if_neg (by norm_num : ¬((1 : ℝ) < 0 ∨ (2 : ℝ) < 0))]
  rfl

/-- C3 (amended): CreatePerspectiveFieldOfView raises its out-of-range
error exactly when fieldOfView < 0 or fieldOfView > Pi (the CLOSED
interval [0, Pi] is accepted, so fov = Pi does not raise), or when
zNear > zFar, or when either depth value is negative. -/
theorem perspective_fov_error_iff (fov aR zN zF : ℝ) :
    raisesError (Matrix.CreatePerspectiveFieldOfView fov aR zN zF) = true ↔
      (fov < 0 ∨ MathHelper.Pi < fov ∨ zF < zN ∨ zN < 0 ∨ zF < 0) := by
  rw [Matrix.CreatePerspectiveFieldOfView]
  by_cases h1 : fov ≥ 0 ∧ fov ≤ MathHelper.Pi
  · rw [if_neg (not_not_intro h1)]
    by_cases h2 : zN > zF
    · rw [if_pos h2]
      exact iff_of_true rfl (Or.inr (Or.inr (Or.inl h2)))
    · by_cases h3 : zN < 0 ∨ zF < 0
      · rw [if_neg h2, if_pos h3]
        refine iff_of_true rfl ?_
        rcases h3 with h | h
        · exact Or.inr (Or.inr (Or.inr (Or.inl h)))
        · exact Or.inr (Or.inr (Or.inr (Or.inr h)))
      · rw [if_neg h2, if_neg h3]
        push_neg at h3
        refine iff_of_false (by simp [raisesError]) ?_
        rintro (h | h | h | h | h)
        · exact absurd h (not_lt.mpr h1.1)
        · exact absurd h (not_lt.mpr h1.2)
        · exact absurd h h2
        · exact absurd h (not_lt.mpr h3.1)
        · exact absurd h (not_lt.mpr h3.2)
  · rw [if_pos h1]
    refine iff_of_true rfl ?_
    rcases not_and_or.mp h1 with h | h
    · exact Or.inl (not_le.mp h)
    · exact Or.inr (Or.inl (not_le.mp h))

/-- C9: Decompose returns false with the rotation output set to Identity
exactly when the Euclidean length of one of the three basis rows is
exactly zero, leaving the scale and translation outputs at their prior
values; otherwise it returns true with the scale output set to the three
non-negative per-row lengths and the translation output to
(M41, M42, M43). -/
theorem decompose_spec (m : Matrix ℝ) (s : Vector3 ℝ) (r : Quaternion ℝ)
    (t : Vector3 ℝ) :
    ((Matrix.Decompose m s r t).1 = false ↔
      (Vector3.Length ⟨m.M11, m.M12, m.M13⟩ = 0
        ∨ Vector3.Length ⟨m.M21, m.M22, m.M23⟩ = 0
        ∨ Vector3.Length ⟨m.M31, m.M32, m.M33⟩ = 0))
    ∧ ((Matrix.Decompose m s r t).1 = false →
        (Matrix.Decompose m s r t).2.2.1 = Quaternion.Identity
        ∧ (Matrix.Decompose m s r t).2.1 = s
        ∧ (Matrix.Decompose m s r t).2.2.2 = t)
    ∧ ((Matrix.Decompose m s r t).1 = true →
        (Matrix.Decompose m s r t).2.1 =
          ⟨Vector3.Length ⟨m.M11, m.M12, m.M13⟩,
           Vector3.Length ⟨m.M21, m.M22, m.M23⟩,
           Vector3.Length ⟨m.M31, m.M32, m.M33⟩⟩
        ∧ 0 ≤ Vector3.Length ⟨m.M11, m.M12, m.M13⟩
        ∧ 0 ≤ Vector3.Length ⟨m.M21, m.M22, m.M23⟩
        ∧ 0 ≤ Vector3.Length ⟨m.M31, m.M32, m.M33⟩
        ∧ (Matrix.Decompose m s r t).2.2.2 = ⟨m.M41, m.M42, m.M43⟩) := by
  have hL1 : Vector3.Length ⟨m.M11, m.M12, m.M13⟩
      = Real.sqrt (m.M11 * m.M11 + m.M12 * m.M12 + m.M13 * m.M13) := rfl
  have hL2 : Vector3.Length ⟨m.M21, m.M22, m.M23⟩
      = Real.sqrt (m.M21 * m.M21 + m.M22 * m.M22 + m.M23 * m.M23) := rfl
  have hL3 : Vector3.Length ⟨m.M31, m.M32, m.M33⟩
      = Real.sqrt (m.M31 * m.M31 + m.M32 * m.M32 + m.M33 * m.M33) := rfl
  by_cases h : Real.sqrt (m.M11 * m.M11 + m.M12 * m.M12 + m.M13 * m.M13) = 0
      ∨ Real.sqrt (m.M21 * m.M21 + m.M22 * m.M22 + m.M23 * m.M23) = 0
      ∨ Real.sqrt (m.M31 * m.M31 + m.M32 * m.M32 + m.M33 * m.M33) = 0
  · have hd : Matrix.Decompose m s r t = (false, s, Quaternion.Identity, t) := by
      simp only [Matrix.Decompose]
      rw [if_pos h]
    rw [hd]
    refine ⟨?_, fun _ => ⟨rfl, rfl, rfl⟩, fun hcontra => absurd hcontra (by simp)⟩
    rw [hL1, hL2, hL3]
    exact iff_of_true rfl h
  · have htrue : (Matrix.Decompose m s r t).1 = true := by
      simp only [Matrix.Decompose]
      rw [if_neg h]
    refine ⟨?_, fun hcontra => ?_, fun _ => ?_⟩
    · refine iff_of_false (by rw [htrue]; simp) ?_
      rw [hL1, hL2, hL3]
      exact h
    · rw [htrue] at hcontra
      exact absurd hcontra (by simp)
    · refine ⟨?_, ?_, ?_, ?_, ?_⟩
      · have hs : (Matrix.Decompose m s r t).2.1 =
            ⟨Real.sqrt (m.M11 * m.M11 + m.M12 * m.M12 + m.M13 * m.M13),
             Real.sqrt (m.M21 * m.M21 + m.M22 * m.M22 + m.M23 * m.M23),
             Real.sqrt (m.M31 * m.M31 + m.M32 * m.M32 + m.M33 * m.M33)⟩ := by
          simp only [Matrix.Decompose]
          rw [if_neg h]
        rw [hs, hL1, hL2, hL3]
      · rw [hL1]; exact Real.sqrt_nonneg _
      · rw [hL2]; exact Real.sqrt_nonneg _
      · rw [hL3]; exact Real.sqrt_nonneg _
      · simp only [Matrix.Decompose]
        rw [if_neg h]

/-- C9 witness at the all-zero matrix with explicit prior values of the
three in-out arguments: Decompose fails, sets the rotation to Identity and
leaves scale and translation unchanged. -/
theorem decompose_spec_witness :
    (Matrix.Decompose
        (⟨0, 0, 0, 0, 0, 0, 0, 0, 0, 0, 0, 0, 0, 0, 0, 0⟩ : Matrix ℝ)
        ⟨5, 6, 7⟩ ⟨1, 2, 3, 4⟩ ⟨8, 9, 10⟩).1 = false
    ∧ (Matrix.Decompose
        (⟨0, 0, 0, 0, 0, 0, 0, 0, 0, 0, 0, 0, 0, 0, 0, 0⟩ : Matrix ℝ)
        ⟨5, 6, 7⟩ ⟨1, 2, 3, 4⟩ ⟨8, 9, 10⟩).2.1 = ⟨5, 6, 7⟩
    ∧ (Matrix.Decompose
        (⟨0, 0, 0, 0, 0, 0, 0, 0, 0, 0, 0, 0, 0, 0, 0, 0⟩ : Matrix ℝ)
        ⟨5, 6, 7⟩ ⟨1, 2, 3, 4⟩ ⟨8, 9, 10⟩).2.2.1 = Quaternion.Identity
    ∧ (Matrix.Decompose
        (⟨0, 0, 0, 0, 0, 0, 0, 0, 0, 0, 0, 0, 0, 0, 0, 0⟩ : Matrix ℝ)
        ⟨5, 6, 7⟩ ⟨1, 2, 3, 4⟩ ⟨8, 9, 10⟩).2.2.2 = ⟨8, 9, 10⟩ := by
  have h := decompose_spec
    (⟨0, 0, 0, 0, 0, 0, 0, 0, 0, 0, 0, 0, 0, 0, 0, 0⟩ : Matrix ℝ)
    ⟨5, 6, 7⟩ ⟨1, 2, 3, 4⟩ ⟨8, 9, 10⟩
  have hzero : Vector3.Length (⟨0, 0, 0⟩ : Vector3 ℝ) = 0 := by
    simp [Vector3.Length, Vector3.LengthSquared]
  have hfalse := h.1.mpr (Or.inl hzero)
  obtain ⟨hr, hs, ht⟩ := h.2.1 hfalse
  exact ⟨hfalse, hs, hr, ht⟩

/-- C1: the claim says Slerp returns exactly Lerp when Dot(a,b) >= 0.999
and otherwise computes the logarithm/exponential form.  The source's
branch is the reverse: at from = (0,0,0,1), to = (1,0,0,0), t = 1/2 the
dot product is 0 < 0.999, the claim demands the log/exp form, but Slerp
returns the Lerp value (1/2, 0, 0, 1/2), which differs from the log/exp
form value (sqrt(2)/2, 0, 0, sqrt(2)/2).  This also contradicts the
source's own comment, which says the Lerp branch is for nearly colinear
inputs. -/
theorem slerp_branch_inverted_at_concrete_input :
    Quaternion.Dot (⟨0, 0, 0, 1⟩ : Quaternion ℝ) ⟨1, 0, 0, 0⟩ < 999 / 1000
    ∧ Quaternion.Slerp (⟨0, 0, 0, 1⟩ : Quaternion ℝ) ⟨1, 0, 0, 0⟩ (1 / 2)
      = Quaternion.Lerp (⟨0, 0, 0, 1⟩ : Quaternion ℝ) ⟨1, 0, 0, 0⟩ (1 / 2)
    ∧ Quaternion.Slerp (⟨0, 0, 0, 1⟩ : Quaternion ℝ) ⟨1, 0, 0, 0⟩ (1 / 2)
      ≠ slerpLogExp (⟨0, 0, 0, 1⟩ : Quaternion ℝ) ⟨1, 0, 0, 0⟩ (1 / 2) := by
  have hdot : Quaternion.Dot (⟨0, 0, 0, 1⟩ : Quaternion ℝ) ⟨1, 0, 0, 0⟩
      = 0 := by
    simp [Quaternion.Dot]
  have hlt : Quaternion.Dot (⟨0, 0, 0, 1⟩ : Quaternion ℝ) ⟨1, 0, 0, 0⟩
      < 999 / 1000 := by
    rw [hdot]; norm_num
  have hslerp : Quaternion.Slerp (⟨0, 0, 0, 1⟩ : Quaternion ℝ) ⟨1, 0, 0, 0⟩
      (1 / 2) = Quaternion.Lerp (⟨0, 0, 0, 1⟩ : Quaternion ℝ) ⟨1, 0, 0, 0⟩
      (1 / 2) := by
    rw [Quaternion.Slerp]
    exact if_pos hlt
  have hlerp : Quaternion.Lerp (⟨0, 0, 0, 1⟩ : Quaternion ℝ) ⟨1, 0, 0, 0⟩
      (1 / 2) = ⟨1 / 2, 0, 0, 1 / 2⟩ := by
    simp only [Quaternion.Lerp, MathHelper.Lerp, Quaternion.mk.injEq]
    norm_num
  have hinv : Quaternion.Inverse (⟨0, 0, 0, 1⟩ : Quaternion ℝ)
      = ⟨0, 0, 0, 1⟩ := by
    simp only [Quaternion.Inverse, Quaternion.Conjugate,
      Quaternion.LengthSquared, Quaternion.divF, Quaternion.mk.injEq]
    norm_num
  have hmul1 : Quaternion.mul (⟨1, 0, 0, 0⟩ : Quaternion ℝ) ⟨0, 0, 0, 1⟩
      = ⟨1, 0, 0, 0⟩ := by
    simp only [Quaternion.mul, Quaternion.mk.injEq]
    norm_num
  have hln : QLn (⟨1, 0, 0, 0⟩ : Quaternion ℝ) = ⟨Real.pi / 2, 0, 0, 0⟩ := by
    simp only [QLn, Quaternion.Length, Quaternion.LengthSquared,
      Quaternion.ofVector3, Vector3.mulF, Quaternion.mk.injEq]
    norm_num [Real.sqrt_one, Real.arccos_zero, Real.log_one]
  have hmulFq : Quaternion.mulF (⟨Real.pi / 2, 0, 0, 0⟩ : Quaternion ℝ)
      (1 / 2) = ⟨Real.pi / 4, 0, 0, 0⟩ := by
    simp only [Quaternion.mulF, Quaternion.mk.injEq]
    refine ⟨by ring, by norm_num, by norm_num, by norm_num⟩
  have hlen4 : Vector3.Length (⟨Real.pi / 4, 0, 0⟩ : Vector3 ℝ)
      = Real.pi / 4 := by
    simp only [Vector3.Length, Vector3.LengthSquared]
    rw [show Real.pi / 4 * (Real.pi / 4) + 0 * 0 + 0 * 0 = (Real.pi / 4) ^ 2
      by ring]
    exact Real.sqrt_sq (by positivity)
  have hexp : QExp (⟨Real.pi / 4, 0, 0, 0⟩ : Quaternion ℝ)
      = ⟨Real.sqrt 2 / 2, 0, 0, Real.sqrt 2 / 2⟩ := by
    simp only [QExp, hlen4, Vector3.divF, Vector3.mulF, Quaternion.ofVector3,
      Quaternion.mulF, Quaternion.mk.injEq]
    rw [Real.sin_pi_div_four, Real.cos_pi_div_four, Real.exp_zero]
    have hpi4 : Real.pi / 4 ≠ 0 := by positivity
    refine ⟨?_, by norm_num, by norm_num, by norm_num⟩
    rw [div_self hpi4]
    ring
  have hmul2 : Quaternion.mul
      (⟨Real.sqrt 2 / 2, 0, 0, Real.sqrt 2 / 2⟩ : Quaternion ℝ) ⟨0, 0, 0, 1⟩
      = ⟨Real.sqrt 2 / 2, 0, 0, Real.sqrt 2 / 2⟩ := by
    simp only [Quaternion.mul, Quaternion.mk.injEq]
    refine ⟨by ring, by ring, by ring, by ring⟩
  have hlogexp : slerpLogExp (⟨0, 0, 0, 1⟩ : Quaternion ℝ) ⟨1, 0, 0, 0⟩
      (1 / 2) = ⟨Real.sqrt 2 / 2, 0, 0, Real.sqrt 2 / 2⟩ := by
    rw [slerpLogExp, hinv, hmul1, QPow, hln, hmulFq, hexp, hmul2]
  have hsqrt : (1 : ℝ) < Real.sqrt 2 := by
    rw [show (1 : ℝ) = Real.sqrt 1 from (Real.sqrt_one).symm]
    exact Real.sqrt_lt_sqrt (by norm_num) (by norm_num)
  refine ⟨hlt, hslerp, ?_⟩
  rw [hslerp, hlerp, hlogexp]
  intro hcontra
  rw [Quaternion.mk.injEq] at hcontra
  have h12 : (1 / 2 : ℝ) = Real.sqrt 2 / 2 := hcontra.1
  have : Real.sqrt 2 = 1 := by linarith
  rw [this] at hsqrt
  exact lt_irrefl _ hsqrt

end YAX
